import Mathlib

/-!
Verification of `sercat.c` (serial read/write test program) against its
natural-language specification, via a shallow embedding of the program in
Lean 4.

Conventions of the embedding:
* C unsigned integers are modelled as `Nat`; where a value-preserving
  conversion matters (e.g. `(speed_t)-1`), the modular reduction is written
  out explicitly.
* The fixed speed table `speeds[]` is embedded with the concrete Linux
  values of the `B*` termios constants (asm-generic termbits); on Linux all
  `#ifdef`-guarded entries are present, so the table has 31 entries.
* OS primitives (`open`, `tcgetattr`, `tcsetattr`, `cfsetspeed`, `tcflush`,
  `read`, `write`) are external collaborators: their outcomes are inputs of
  the embedded functions, and the calls the program issues are recorded in
  an explicit action trace.
* `exit(-1)` makes the process terminate with status byte 255 (non-zero);
  `exit(1)` with status 1; `exit(0)` with status 0.
-/

namespace Sercat

/-- One row of the C `struct speed { speed_t sym; unsigned int val; }`. -/
structure SpeedEntry where
  sym : Nat
  val : Nat
deriving DecidableEq, Repr

/-- The fixed table `speeds[]` from sercat.c lines 49–114, with the Linux
numeric values of the `B*` constants (`B0 = 0 … B38400 = 0o17`,
`B57600 = 0o10001 … B4000000 = 0o10017`). -/
def speeds : List SpeedEntry :=
  [ ⟨0, 0⟩,        -- B0
    ⟨1, 50⟩,       -- B50
    ⟨2, 75⟩,       -- B75
    ⟨3, 110⟩,      -- B110
    ⟨4, 134⟩,      -- B134
    ⟨5, 150⟩,      -- B150
    ⟨6, 200⟩,      -- B200
    ⟨7, 300⟩,      -- B300
    ⟨8, 600⟩,      -- B600
    ⟨9, 1200⟩,     -- B1200
    ⟨10, 1800⟩,    -- B1800
    ⟨11, 2400⟩,    -- B2400
    ⟨12, 4800⟩,    -- B4800
    ⟨13, 9600⟩,    -- B9600
    ⟨14, 19200⟩,   -- B19200
    ⟨15, 38400⟩,   -- B38400
    ⟨4097, 57600⟩,   -- B57600
    ⟨4098, 115200⟩,  -- B115200
    ⟨4099, 230400⟩,  -- B230400
    ⟨4100, 460800⟩,  -- B460800
    ⟨4101, 500000⟩,  -- B500000
    ⟨4102, 576000⟩,  -- B576000
    ⟨4103, 921600⟩,  -- B921600
    ⟨4104, 1000000⟩, -- B1000000
    ⟨4105, 1152000⟩, -- B1152000
    ⟨4106, 1500000⟩, -- B1500000
    ⟨4107, 2000000⟩, -- B2000000
    ⟨4108, 2500000⟩, -- B2500000
    ⟨4109, 3000000⟩, -- B3000000
    ⟨4110, 3500000⟩, -- B3500000
    ⟨4111, 4000000⟩  -- B4000000
  ]

/-- `(speed_t)-1`: the sentinel `get_speed_sym` returns, after the C
conversion of `-1` to the unsigned 32-bit `speed_t`. -/
def SPEED_SYM_NOT_FOUND : Nat := 2 ^ 32 - 1

/-- Linear scan of a speed table by symbol, returning the value as a C
`int` (so the not-found sentinel is the genuine `-1`). -/
def lookupVal : List SpeedEntry → Nat → Int
  | [], _ => -1
  | e :: rest, s => if e.sym = s then (e.val : Int) else lookupVal rest s

/-- Linear scan of a speed table by value, returning the symbol as a
`speed_t` (unsigned), so `return -1` yields `2^32 - 1`. -/
def lookupSym : List SpeedEntry → Nat → Nat
  | [], _ => SPEED_SYM_NOT_FOUND
  | e :: rest, v => if e.val = v then e.sym else lookupSym rest v

/-- `get_speed_val` from sercat.c lines 116–124: value (bps) of a native
speed symbol, or `-1` when the symbol is not in the table. -/
def get_speed_val (speed : Nat) : Int := lookupVal speeds speed

/-- `get_speed_sym` from sercat.c lines 126–134: native speed symbol for a
bps value, or `(speed_t)-1` when the value is not in the table. -/
def get_speed_sym (speed : Nat) : Nat := lookupSym speeds speed

/-! ## Device configurator (`device_open`, sercat.c lines 169–251)

After the `open` call has succeeded (yielding `fd`), `device_open` issues a
sequence of OS configuration calls.  Each call's success or failure is an
input (`OSBehavior`); the configuration calls actually issued to the device
are recorded in an action trace, and any failure path calls `exit(-1)`. -/

/-- Outcome of the `tcgetattr` query and of each subsequent OS call, as seen
by `device_open`.  `tcgetattr` either succeeds or fails with an `errno`. -/
structure OSBehavior where
  tcgetattrRes : Except Nat Unit
  setattrRawOk : Bool
  setattrFlowOk : Bool
  cfsetspeedOk : Bool
  setattrSpeedOk : Bool
  flushOk : Bool
deriving Repr

/-- The Linux `errno` value for "not a typewriter / not a tty". -/
def ENOTTY : Nat := 25

/-- The option state relevant to `device_open`: `opt_hwflow`, `opt_noflow`
and `opt_speed` (0 when no `-s` was given, or when its argument parsed
to 0). -/
structure Config where
  hwflow : Bool
  noflow : Bool
  speed : Nat
deriving DecidableEq, Repr

/-- A configuration call applied to the device by `device_open`. -/
inductive Action
  | setattrRaw                -- tcsetattr after cfmakeraw
  | setattrFlow (enable : Bool) -- tcsetattr after changing CRTSCTS
  | setSpeed (sym : Nat)      -- cfsetspeed (+ tcsetattr) with a table symbol
  | flush                     -- tcflush(fd, TCIOFLUSH)
deriving DecidableEq, Repr

/-- Whether an action applies a speed to the device. -/
def isSetSpeed : Action → Bool
  | Action.setSpeed _ => true
  | _ => false

/-- Which failure made `device_open` call `exit(-1)`. -/
inductive DevError
  | getattr       -- "Failed to get terminal attributes"
  | rawMode       -- "Failed to enable raw mode"
  | flowCtl       -- "Failed to en/disable hardware flow control"
  | unsupportedSpeed -- "Unknown serial speed %u"
  | speedSet      -- "Failed to set serial speed" (cfsetspeed)
  | speedAttr     -- "Failed to set speed attribute" (tcsetattr)
  | flushFail     -- "Failed to flush"
deriving DecidableEq, Repr

/-- Result of `device_open` after a successful `open`: either the fd is
returned to `main`, or the process exits with a fatal error. -/
inductive DevResult
  | ok (fd : Nat)
  | fatal (e : DevError)
deriving DecidableEq, Repr

/-- Process status byte observed when `device_open` finishes: `none` when
it returns normally, `some 255` when a fatal path calls `exit(-1)`. -/
def devExit : DevResult → Option Nat
  | DevResult.ok _ => none
  | DevResult.fatal _ => some 255

/-- Trailing `tcflush(fd, TCIOFLUSH)` of `device_open` (lines 244–250). -/
def finishFlush (t : List Action) (os : OSBehavior) (fd : Nat) :
    List Action × DevResult :=
  if os.flushOk then (t ++ [Action.flush], DevResult.ok fd)
  else (t ++ [Action.flush], DevResult.fatal DevError.flushFail)

/-- `device_open` from sercat.c lines 169–251, starting after the `open`
call succeeded with descriptor `fd`.  Returns the trace of configuration
calls issued to the device together with the result.  The comparison
`sym == -1` in the C compares the `speed_t` result converted to `int`,
which is `-1` exactly when the `speed_t` is `2^32 - 1`. -/
def device_open (os : OSBehavior) (cfg : Config) (fd : Nat) :
    List Action × DevResult :=
  match os.tcgetattrRes with
  | Except.error e =>
    if e = ENOTTY then ([], DevResult.ok fd)
    else ([], DevResult.fatal DevError.getattr)
  | Except.ok _ =>
    let t1 := [Action.setattrRaw]
    if !os.setattrRawOk then (t1, DevResult.fatal DevError.rawMode)
    else
      let t2 := if cfg.hwflow || cfg.noflow then t1 ++ [Action.setattrFlow cfg.hwflow] else t1
      if (cfg.hwflow || cfg.noflow) && !os.setattrFlowOk then
        (t2, DevResult.fatal DevError.flowCtl)
      else if cfg.speed ≠ 0 then
        let sym := get_speed_sym cfg.speed
        if sym = SPEED_SYM_NOT_FOUND then (t2, DevResult.fatal DevError.unsupportedSpeed)
        else
          let t3 := t2 ++ [Action.setSpeed sym]
          if !os.cfsetspeedOk then (t3, DevResult.fatal DevError.speedSet)
          else if !os.setattrSpeedOk then (t3, DevResult.fatal DevError.speedAttr)
          else finishFlush t3 os fd
      else
        finishFlush t2 os fd

/-! ## Relay loop (`main`, sercat.c lines 304–327)

The source endpoint is modelled as the finite byte sequence it yields
before end-of-stream: `read(rx_fd, buf, 1024)` returns the next
`min 1024 remaining` bytes, and `0` once the sequence is exhausted.  The
sink endpoint is modelled by a write behavior `w`: on the `k`-th write call
requesting `n` bytes, `write(tx_fd, buf, n)` returns `w k n` (negative for
an error, smaller than `n` for a short write). -/

/-- `BUF_SIZE` from sercat.c line 29. -/
def BUF_SIZE : Nat := 1024

/-- How the relay loop ends, carrying the bytes the sink received. -/
inductive RelayOutcome
  | success (received : List Nat)                       -- read returned 0
  | writeError (received : List Nat)                    -- write returned < 0
  | shortWrite (received : List Nat) (requested actual : Nat)
deriving DecidableEq, Repr

/-- Process status byte at the end of the relay loop: `exit(0)` on clean
end-of-stream, `exit(-1)` (status byte 255) on any error. -/
def relayExit : RelayOutcome → Nat
  | RelayOutcome.success _ => 0
  | RelayOutcome.writeError _ => 255
  | RelayOutcome.shortWrite _ _ _ => 255

/-- The `while (1)` loop of `main` (lines 304–323): `k` counts the write
calls issued so far, `src` is what the source still yields, `acc` what the
sink has received. -/
def relayAux (w : Nat → Nat → Int) (k : Nat) (src acc : List Nat) :
    RelayOutcome :=
  if hs : src = [] then RelayOutcome.success acc
  else if w k (src.take BUF_SIZE).length < 0 then RelayOutcome.writeError acc
  else if (w k (src.take BUF_SIZE).length).toNat < (src.take BUF_SIZE).length then
    RelayOutcome.shortWrite acc (src.take BUF_SIZE).length
      (w k (src.take BUF_SIZE).length).toNat
  else relayAux w (k + 1) (src.drop BUF_SIZE) (acc ++ src.take BUF_SIZE)
termination_by src.length
decreasing_by
  have hpos : 0 < src.length := List.length_pos.mpr hs
  simp only [List.length_drop, BUF_SIZE]
  omega

/-- The relay loop started on a fresh source/sink pair. -/
def relay (w : Nat → Nat → Int) (src : List Nat) : RelayOutcome :=
  relayAux w 0 src []

/-- A sink that accepts every write in full: `write` returns its byte
count. -/
def fullWrite : Nat → Nat → Int := fun _ n => (n : Int)

/-! ## Endpoint setup and shutdown (`main`, lines 296–302 and 325) -/

/-- The `(rx_fd, tx_fd)` pair `main` sets up: in write mode the source is
stdin (fd 0) and the sink the opened device; otherwise the source is the
opened device and the sink stdout (fd 1). -/
def mainFds (opt_write : Bool) (devFd : Nat) : Nat × Nat :=
  if opt_write then (0, devFd) else (devFd, 1)

/-- The single descriptor `main` closes at shutdown (line 325):
`close(opt_write ? tx_fd : rx_fd)`. -/
def closedFd (opt_write : Bool) (devFd : Nat) : Nat :=
  if opt_write then (mainFds opt_write devFd).2 else (mainFds opt_write devFd).1

/-! ## Argument parsing (`main`, lines 259–294, and `usage`, lines 151–167) -/

/-- The option state accumulated by `main`'s argument loop.  The `-s`
argument is kept as the raw string handed to `strtoul`. -/
structure Opts where
  dev : Option String
  speedArg : Option String
  readMode : Bool
  writeMode : Bool
  hwflow : Bool
  noflow : Bool
  verbose : Bool
deriving DecidableEq, Repr

/-- All-zero option state at program start (the C statics). -/
def initOpts : Opts :=
  ⟨none, none, false, false, false, false, false⟩

/-- Outcome of the argument loop: either `usage()` was called (which prints
the usage text and calls `exit(1)`), or the loop finished with the
accumulated options. -/
inductive ParseResult
  | usageExit
  | parsed (o : Opts)
deriving DecidableEq, Repr

/-- Exit status of `usage()` (line 166: `exit(1)`). -/
def usageExitStatus : Nat := 1

/-- The `while (argc > 1)` option loop of `main` (lines 259–291), applied
to `argv[1..]`. -/
def parseArgs : List String → Opts → ParseResult
  | [], o => ParseResult.parsed o
  | a :: rest, o =>
    if a = "-h" || a = "--help" then ParseResult.usageExit
    else if a = "-f" || a = "--hwflow" then parseArgs rest { o with hwflow := true }
    else if a = "-n" || a = "--noflow" then parseArgs rest { o with noflow := true }
    else if a = "-r" || a = "--read" then parseArgs rest { o with readMode := true }
    else if a = "-w" || a = "--write" then parseArgs rest { o with writeMode := true }
    else if a = "-s" || a = "--speed" then
      match rest with
      | [] => ParseResult.usageExit
      | v :: rest2 => parseArgs rest2 { o with speedArg := some v }
    else if a = "-v" || a = "--verbose" then parseArgs rest { o with verbose := true }
    else if o.dev = none then parseArgs rest { o with dev := some a }
    else ParseResult.usageExit

/-! ## Theorems -/

/-- Helper: the value-by-symbol scan returns the `-1` sentinel exactly when
the symbol occurs nowhere in the table (table values, being unsigned, can
never collide with `-1`). -/
theorem lookupVal_eq_neg_one_iff (L : List SpeedEntry) (s : Nat) :
    lookupVal L s = -1 ↔ ∀ e ∈ L, e.sym ≠ s := by
  induction L with
  | nil => simp [lookupVal]
  | cons e rest ih =>
    simp only [lookupVal, List.forall_mem_cons]
    by_cases h : e.sym = s
    · rw [if_pos h]
      constructor
      · intro hc; exact absurd hc (by omega)
      · intro hc; exact absurd h hc.1
    · rw [if_neg h, ih]
      simp [h]

/-- Helper: the symbol-by-value scan returns the `(speed_t)-1` sentinel
exactly when the value occurs nowhere in the table, provided no table
symbol equals the sentinel. -/
theorem lookupSym_eq_sentinel_iff (L : List SpeedEntry) (v : Nat)
    (hL : ∀ e ∈ L, e.sym ≠ SPEED_SYM_NOT_FOUND) :
    lookupSym L v = SPEED_SYM_NOT_FOUND ↔ ∀ e ∈ L, e.val ≠ v := by
  induction L with
  | nil => simp [lookupSym]
  | cons e rest ih =>
    simp only [lookupSym, List.forall_mem_cons]
    by_cases h : e.val = v
    · rw [if_pos h]
      constructor
      · intro hc; exact absurd hc (hL e (by simp))
      · intro hc; exact absurd h hc.1
    · rw [if_neg h, ih (fun x hx => hL x (by simp [hx]))]
      simp [h]

/-- C2: for every entry of the speed table, the two lookups round-trip:
`get_speed_sym` of `get_speed_val` of a table symbol gives the symbol back,
and `get_speed_val` of `get_speed_sym` of a table value gives the value
back. -/
theorem speed_table_round_trip (e : SpeedEntry) (he : e ∈ speeds) :
    get_speed_sym (get_speed_val e.sym).toNat = e.sym ∧
    get_speed_val (get_speed_sym e.val) = (e.val : Int) := by
  have h : ∀ x ∈ speeds,
      get_speed_sym (get_speed_val x.sym).toNat = x.sym ∧
      get_speed_val (get_speed_sym x.val) = (x.val : Int) := by decide
  exact h e he

/-- C2 witness: the round-trip at the concrete table entry (B38400, 38400). -/
theorem speed_table_round_trip_witness :
    get_speed_sym (get_speed_val 15).toNat = 15 ∧
    get_speed_val (get_speed_sym 38400) = (38400 : Int) :=
  speed_table_round_trip ⟨15, 38400⟩ (by decide)

/-- C6: each lookup's not-found sentinel is distinguishable from every
valid result: `get_speed_val` returns `-1` exactly on symbols absent from
the table, `get_speed_sym` returns `(speed_t)-1 = 2^32-1` exactly on values
absent from the table, and neither sentinel collides with the legitimate
0-entry (`get_speed_val 0 ≠ -1`, `get_speed_sym 0 ≠ 2^32-1`). -/
theorem speed_lookup_sentinels (s v : Nat) :
    (get_speed_val s = -1 ↔ ∀ e ∈ speeds, e.sym ≠ s) ∧
    (get_speed_sym v = SPEED_SYM_NOT_FOUND ↔ ∀ e ∈ speeds, e.val ≠ v) ∧
    get_speed_val 0 ≠ -1 ∧ get_speed_sym 0 ≠ SPEED_SYM_NOT_FOUND := by
  refine ⟨lookupVal_eq_neg_one_iff speeds s, ?_, by decide, by decide⟩
  exact lookupSym_eq_sentinel_iff speeds v (by decide)

/-- C6 witness: 12346 is neither a table symbol nor a table value, and both
lookups return their sentinels on it. -/
theorem speed_lookup_sentinels_witness :
    get_speed_val 12346 = -1 ∧ get_speed_sym 12346 = SPEED_SYM_NOT_FOUND :=
  ⟨(speed_lookup_sentinels 12346 12346).1.mpr (by decide),
   (speed_lookup_sentinels 12346 12346).2.1.mpr (by decide)⟩

/-- C7: the speed table as built has pairwise-distinct values, pairwise-
distinct symbols, and an entry mapping the 0 bps value (the B0 "hang up"
symbol). -/
theorem speed_table_invariants :
    (speeds.map SpeedEntry.val).Nodup ∧
    (speeds.map SpeedEntry.sym).Nodup ∧
    ∃ e ∈ speeds, e.val = 0 := by decide

/-- Helper: against a sink that accepts every write in full, the relay loop
appends the whole remaining source to what was already delivered and ends
with success, whatever the iteration counter. -/
theorem relayAux_fullWrite (n : Nat) :
    ∀ src : List Nat, src.length ≤ n → ∀ k acc,
      relayAux fullWrite k src acc = RelayOutcome.success (acc ++ src) := by
  induction n with
  | zero =>
    intro src h k acc
    have hsrc : src = [] := List.eq_nil_of_length_eq_zero (Nat.le_zero.mp h)
    subst hsrc
    rw [relayAux]
    simp
  | succ m ih =>
    intro src h k acc
    rw [relayAux]
    by_cases hs : src = []
    · simp [hs]
    · rw [dif_neg hs]
      have h1 : ¬ (fullWrite k (src.take BUF_SIZE).length < 0) := by
        simp [fullWrite]
      have h2 : ¬ ((fullWrite k (src.take BUF_SIZE).length).toNat <
          (src.take BUF_SIZE).length) := by
        simp [fullWrite]
        omega
      rw [if_neg h1, if_neg h2]
      have hlen : (src.drop BUF_SIZE).length ≤ m := by
        have hpos : 0 < src.length := List.length_pos.mpr hs
        simp only [List.length_drop, BUF_SIZE] at *
        omega
      rw [ih _ hlen]
      rw [List.append_assoc, List.take_append_drop]

/-- C1: for every finite byte sequence the source yields before
end-of-stream, the relay loop against a fully-accepting sink delivers
exactly those bytes in order (across as many `BUF_SIZE` chunks as needed)
and exits with status 0. -/
theorem relay_delivers_all (src : List Nat) :
    relay fullWrite src = RelayOutcome.success src ∧
    relayExit (relay fullWrite src) = 0 := by
  have h := relayAux_fullWrite src.length src (le_refl _) 0 []
  simp only [List.nil_append] at h
  rw [relay, h]
  exact ⟨rfl, rfl⟩

/-- C3: on any relay iteration (write call `k`, bytes `acc` already
delivered) where the write is short — a non-negative result smaller than
the bytes just read — the loop stops at once: only the previously
delivered bytes stand, the requested and actual counts are reported, the
remaining bytes are never retried, and the process exits with the non-zero
status byte 255. -/
theorem short_write_is_fatal (w : Nat → Nat → Int) (k : Nat)
    (src acc : List Nat) (hne : src ≠ [])
    (hnonneg : 0 ≤ w k (src.take BUF_SIZE).length)
    (hshort : (w k (src.take BUF_SIZE).length).toNat < (src.take BUF_SIZE).length) :
    relayAux w k src acc =
      RelayOutcome.shortWrite acc (src.take BUF_SIZE).length
        (w k (src.take BUF_SIZE).length).toNat ∧
    relayExit (relayAux w k src acc) = 255 := by
  have h1 : ¬ (w k (src.take BUF_SIZE).length < 0) := not_lt.mpr hnonneg
  rw [relayAux, dif_neg hne, if_neg h1, if_pos hshort]
  exact ⟨rfl, rfl⟩

/-- C3 witness: a five-byte source against a sink that accepts only three
bytes of the first write of the loop (`relay w src = relayAux w 0 src []`). -/
theorem short_write_is_fatal_witness :
    relayAux (fun _ _ => (3 : Int)) 0 [1, 2, 3, 4, 5] [] =
      RelayOutcome.shortWrite [] 5 3 ∧
    relayExit (relayAux (fun _ _ => (3 : Int)) 0 [1, 2, 3, 4, 5] []) = 255 :=
  short_write_is_fatal (fun _ _ => (3 : Int)) 0 [1, 2, 3, 4, 5] []
    (by decide) (by decide) (by decide)

/-- Helper: whenever the attribute query succeeds, `device_open` issues at
least one configuration call (the raw-mode `tcsetattr` always comes
first). -/
theorem device_open_configures (os : OSBehavior) (cfg : Config) (fd : Nat)
    (h : os.tcgetattrRes = Except.ok ()) :
    (device_open os cfg fd).1 ≠ [] := by
  simp only [device_open, h, finishFlush]
  split_ifs <;> simp

/-- C4: the attribute query failing with `ENOTTY` is exactly the case in
which `device_open` skips every configuration call and returns the open
descriptor as-is; a query failure with any other `errno` is fatal and exits
with the non-zero status byte 255. -/
theorem notty_skips_config (os : OSBehavior) (cfg : Config) (fd : Nat) :
    (device_open os cfg fd = ([], DevResult.ok fd) ↔
      os.tcgetattrRes = Except.error ENOTTY) ∧
    (∀ e, os.tcgetattrRes = Except.error e → e ≠ ENOTTY →
      device_open os cfg fd = ([], DevResult.fatal DevError.getattr) ∧
      devExit (device_open os cfg fd).2 = some 255) := by
  constructor
  · constructor
    · intro h
      cases hg : os.tcgetattrRes with
      | error e =>
        by_cases he : e = ENOTTY
        · rw [he]
        · exfalso
          simp only [device_open, hg, if_neg he] at h
          simp at h
      | ok u =>
        exfalso
        cases u
        have hne := device_open_configures os cfg fd hg
        rw [h] at hne
        exact hne rfl
    · intro h
      simp [device_open, h]
  · intro e hg hne
    refine ⟨?_, ?_⟩ <;> simp only [device_open, hg, if_neg hne] <;> rfl

/-- C4 witness: with `errno = ENOTTY (25)` the descriptor 3 is returned
untouched with an empty configuration trace; with `errno = EIO (5)` the
result is the fatal attribute-query error. -/
theorem notty_skips_config_witness :
    device_open ⟨Except.error 25, true, true, true, true, true⟩
      ⟨false, false, 0⟩ 3 = ([], DevResult.ok 3) ∧
    device_open ⟨Except.error 5, true, true, true, true, true⟩
      ⟨false, false, 0⟩ 3 = ([], DevResult.fatal DevError.getattr) :=
  ⟨(notty_skips_config ⟨Except.error 25, true, true, true, true, true⟩
      ⟨false, false, 0⟩ 3).1.mpr rfl,
   ((notty_skips_config ⟨Except.error 5, true, true, true, true, true⟩
      ⟨false, false, 0⟩ 3).2 5 rfl (by decide)).1⟩

/-- C5: on a genuine terminal (attribute query and earlier configuration
calls succeed), a nonzero requested speed absent from the table makes
`device_open` exit with the fatal "unsupported speed" error and status byte
255, and no speed-applying call ever appears in the trace. -/
theorem unsupported_speed_is_fatal (os : OSBehavior) (cfg : Config) (fd : Nat)
    (hok : os.tcgetattrRes = Except.ok ())
    (hraw : os.setattrRawOk = true)
    (hflow : os.setattrFlowOk = true)
    (hnz : cfg.speed ≠ 0)
    (habs : ∀ e ∈ speeds, e.val ≠ cfg.speed) :
    (device_open os cfg fd).2 = DevResult.fatal DevError.unsupportedSpeed ∧
    devExit (device_open os cfg fd).2 = some 255 ∧
    ((device_open os cfg fd).1.all fun a => !isSetSpeed a) = true := by
  have hsym : get_speed_sym cfg.speed = SPEED_SYM_NOT_FOUND :=
    (lookupSym_eq_sentinel_iff speeds cfg.speed (by decide)).mpr habs
  simp only [device_open, hok, hraw, hflow, Bool.not_true, Bool.and_false,
    Bool.false_eq_true, if_false, if_pos hnz, hsym, if_pos rfl]
  by_cases hfl : cfg.hwflow || cfg.noflow <;>
    simp [hfl, isSetSpeed, devExit]

/-- C5 witness: requesting 12345 bps (absent from the table) on a healthy
terminal device. -/
theorem unsupported_speed_is_fatal_witness :
    (device_open ⟨Except.ok (), true, true, true, true, true⟩
        ⟨false, false, 12345⟩ 3).2 = DevResult.fatal DevError.unsupportedSpeed ∧
    devExit (device_open ⟨Except.ok (), true, true, true, true, true⟩
        ⟨false, false, 12345⟩ 3).2 = some 255 ∧
    ((device_open ⟨Except.ok (), true, true, true, true, true⟩
        ⟨false, false, 12345⟩ 3).1.all fun a => !isSetSpeed a) = true :=
  unsupported_speed_is_fatal ⟨Except.ok (), true, true, true, true, true⟩
    ⟨false, false, 12345⟩ 3 rfl rfl rfl (by decide) (by decide)

/-- C9: a requested speed of 0 — which is also what the unchecked
`strtoul` parse yields for a non-numeric `-s` argument — behaves exactly
like an unspecified speed: `device_open` never applies any speed to the
device (so the table's 0 bps entry is unreachable through the speed
option) and never raises the "unsupported speed" error. -/
theorem zero_speed_means_unspecified (os : OSBehavior) (cfg : Config) (fd : Nat)
    (h0 : cfg.speed = 0) :
    ((device_open os cfg fd).1.all fun a => !isSetSpeed a) = true ∧
    (device_open os cfg fd).2 ≠ DevResult.fatal DevError.unsupportedSpeed := by
  cases hg : os.tcgetattrRes with
  | error e =>
    by_cases he : e = ENOTTY <;>
      simp [device_open, hg, he]
  | ok u =>
    cases u
    simp only [device_open, hg, finishFlush, h0]
    split_ifs <;> simp_all [isSetSpeed]

/-- C9 witness: `-s` parsed to 0 on a healthy terminal device with
hardware flow control requested. -/
theorem zero_speed_means_unspecified_witness :
    ((device_open ⟨Except.ok (), true, true, true, true, true⟩
        ⟨true, false, 0⟩ 3).1.all fun a => !isSetSpeed a) = true ∧
    (device_open ⟨Except.ok (), true, true, true, true, true⟩
        ⟨true, false, 0⟩ 3).2 ≠ DevResult.fatal DevError.unsupportedSpeed :=
  zero_speed_means_unspecified ⟨Except.ok (), true, true, true, true, true⟩
    ⟨true, false, 0⟩ 3 rfl

/-- C8: at shutdown `main` closes exactly the descriptor `device_open`
returned — the device endpoint, in either direction — and, the device
descriptor being distinct from the inherited standard streams, never
closes stdin (0) or stdout (1). -/
theorem shutdown_closes_only_device (opt_write : Bool) (devFd : Nat)
    (h0 : devFd ≠ 0) (h1 : devFd ≠ 1) :
    closedFd opt_write devFd = devFd ∧
    closedFd opt_write devFd ≠ 0 ∧ closedFd opt_write devFd ≠ 1 := by
  cases opt_write <;> simp only [closedFd, mainFds] <;>
    simp <;> exact ⟨h0, h1⟩

/-- C8 witness: write mode with the device open on descriptor 3. -/
theorem shutdown_closes_only_device_witness :
    closedFd true 3 = 3 ∧ closedFd true 3 ≠ 0 ∧ closedFd true 3 ≠ 1 :=
  shutdown_closes_only_device true 3 (by decide) (by decide)

/-- C10: an argument list starting with `-h` or `--help` makes the option
loop call `usage()`, the same path as a usage error, which exits with
status 1 — never with the success status 0. -/
theorem help_exits_via_usage (rest : List String) (o : Opts) :
    parseArgs ("-h" :: rest) o = ParseResult.usageExit ∧
    parseArgs ("--help" :: rest) o = ParseResult.usageExit ∧
    usageExitStatus = 1 ∧ usageExitStatus ≠ 0 := by
  refine ⟨?_, ?_, rfl, by decide⟩ <;> rw [parseArgs.eq_def] <;> simp

end Sercat
